import Mathlib

/-!
Shallow embedding of the SimpleLang tree-walking interpreter, in its two
near-duplicate variants:

* `src/other/simple_lang/simple_lang.py` (`Interpreter`, with separate
  `visitMulDiv` and `visitAddSub` expression visitors), embedded as `eval1`,
  `evalCondition1`, `execStmt1`, `execStmts1`;
* `src/other/simple_lang2/simple_lang.py` (`SimpleLangInterpreter`, with the
  arithmetic operators unified in one `visitArithmOp` visitor), embedded as
  `eval2`, `evalCondition2`, `execStmt2`, `execStmts2`.

The interpreters consume an already-parsed AST; lexing and parsing are out of
scope, so the AST is modelled directly as inductive types.  Numbers are
modelled as rationals: the Python value level does not distinguish int from
float and `/` is true (non-truncating) division.  Python raises exceptions for
every failure; the embedding returns `Except`/`ExecResult` values instead, with
one error constructor per failure kind.  Python `/` raises `ZeroDivisionError`
on a zero divisor (there is no guard in the interpreter source); this host
behaviour is modelled by `hostDiv`.  `print` appends the printed payload to the
output list carried in the state; a failure result carries the state (bindings
and output) accumulated up to the point of failure, matching the fact that a
raised Python exception does not undo prior mutations or emitted output.
-/

namespace SimpleLang

/-- Runtime value: the `Value` dataclass of `simple_lang` and (structurally
identical) `Variable` dataclass of `simple_lang2`: a kind tag
("number"/"text") together with a payload. -/
inductive Value where
  | number : ℚ → Value
  | text : String → Value
deriving DecidableEq, Repr

/-- The `kind` field of the Python dataclass, as a function of the payload. -/
def Value.kind : Value → String
  | .number _ => "number"
  | .text _ => "text"

/-- Which type-checking site raised a `TypeError` (the Python messages differ
between the sites, and between the two interpreter variants). -/
inductive TMSite where
  | mulDiv
  | addSub
  | arithmOp
  | condition
deriving DecidableEq, Repr

/-- Classified failures, one constructor per error kind of the interpreter
(`NameError` for undefined variables, `TypeError` at operator sites,
`TypeError` at declaration sites, the defensive `RuntimeError` branches for an
operator outside the enumerated set), plus the host-raised
`ZeroDivisionError` that a zero divisor in `/` produces (the interpreter code
has no division-by-zero check of its own). -/
inductive Err where
  | undefinedVariable (name : String)
  | typeMismatch (site : TMSite)
  | declaredTypeMismatch (name : String) (declared : String) (actual : String)
  | unknownOperator
  | hostZeroDivision
deriving DecidableEq, Repr

/-- The error kind, as classified by the specification taxonomy. -/
def Err.kind : Err → String
  | .undefinedVariable _ => "UndefinedVariable"
  | .typeMismatch _ => "TypeMismatch"
  | .declaredTypeMismatch _ _ _ => "DeclaredTypeMismatch"
  | .unknownOperator => "UnknownOperator"
  | .hostZeroDivision => "ZeroDivisionError"

/-- The error kinds raised by the interpreter itself (the host-raised
`ZeroDivisionError` is not among them). -/
def interpreterErrorKinds : List String :=
  ["UndefinedVariable", "TypeMismatch", "DeclaredTypeMismatch", "UnknownOperator"]

/-- Arithmetic operator of a binary expression. -/
inductive ArithOp where
  | add
  | sub
  | mul
  | div
deriving DecidableEq, Repr

/-- Comparison operator of an `if` condition. -/
inductive CompOp where
  | eq
  | ne
  | lt
  | le
  | gt
  | ge
deriving DecidableEq, Repr

/-- Declared type keyword of a variable declaration (`number` / `text`). -/
inductive DeclKind where
  | number
  | text
deriving DecidableEq, Repr

/-- The keyword spelled as a kind string, for comparison against
`Value.kind`. -/
def DeclKind.str : DeclKind → String
  | .number => "number"
  | .text => "text"

/-- Expression AST nodes.  `stringLit` carries the text payload after
escape-sequence decoding (the decoding itself happens in `visitStringLit`
from the raw quoted token and involves no interpreter state). -/
inductive Expr where
  | intLit : Int → Expr
  | stringLit : String → Expr
  | varRef : String → Expr
  | paren : Expr → Expr
  | binaryOp : ArithOp → Expr → Expr → Expr
deriving DecidableEq, Repr

/-- An `if` condition: exactly one comparison between two expressions
(conditions are not general expressions in the grammar). -/
structure Condition where
  left : Expr
  op : CompOp
  right : Expr
deriving DecidableEq, Repr

/-- Statement AST nodes.  The else-block of `ifStmt` is optional
(`ctx.ELSE() is not None` in the source).  A block is a plain statement
list. -/
inductive Stmt where
  | varDecl : String → DeclKind → Expr → Stmt
  | printStmt : Expr → Stmt
  | ifStmt : Condition → List Stmt → Option (List Stmt) → Stmt

/-- The environment: the single flat `self.env` dict mapping names to
values. -/
abbrev Env := String → Option Value

/-- `self.env[name] = v`: insert or overwrite, total. -/
def Env.declare (env : Env) (name : String) (v : Value) : Env :=
  fun n => if n = name then some v else env n

/-- The empty environment a fresh interpreter starts with. -/
def emptyEnv : Env := fun _ => none

/-- Python true division `a / b`: raises `ZeroDivisionError` when the divisor
is zero, otherwise yields the exact (non-truncating) quotient. -/
def hostDiv (a b : ℚ) : Except Err Value :=
  if b = 0 then .error .hostZeroDivision else .ok (.number (a / b))

/-- `Interpreter.visitMulDiv` of `simple_lang`, after both operands have been
evaluated: the kind check, then the operator dispatch.  The final wildcard is
the `raise RuntimeError("Unexpected operator")` branch (unreachable: the
grammar only routes `*` and `/` here). -/
def mulDivApply (op : ArithOp) (left right : Value) : Except Err Value :=
  if left.kind ≠ "number" ∨ right.kind ≠ "number" then
    .error (.typeMismatch .mulDiv)
  else
    match left, right, op with
    | .number a, .number b, .mul => .ok (.number (a * b))
    | .number a, .number b, .div => hostDiv a b
    | _, _, _ => .error .unknownOperator

/-- `Interpreter.visitAddSub` of `simple_lang`, after both operands have been
evaluated: the kind check (no string concatenation), then the operator
dispatch; wildcard as in `mulDivApply`. -/
def addSubApply (op : ArithOp) (left right : Value) : Except Err Value :=
  if left.kind ≠ "number" ∨ right.kind ≠ "number" then
    .error (.typeMismatch .addSub)
  else
    match left, right, op with
    | .number a, .number b, .add => .ok (.number (a + b))
    | .number a, .number b, .sub => .ok (.number (a - b))
    | _, _, _ => .error .unknownOperator

/-- `SimpleLangInterpreter.visitArithmOp` of `simple_lang2`, after both
operands have been evaluated: one unified kind check and a four-way operator
dispatch, trailing `raise RuntimeError(f"Unexpected operator {op}")`. -/
def arithmOpApply (op : ArithOp) (left right : Value) : Except Err Value :=
  if left.kind ≠ "number" ∨ right.kind ≠ "number" then
    .error (.typeMismatch .arithmOp)
  else
    match left, right, op with
    | .number a, .number b, .add => .ok (.number (a + b))
    | .number a, .number b, .sub => .ok (.number (a - b))
    | .number a, .number b, .mul => .ok (.number (a * b))
    | .number a, .number b, .div => hostDiv a b
    | _, _, _ => .error .unknownOperator

/-- Expression evaluation of `simple_lang` (`visitIntLit`, `visitStringLit`,
`visitVarRef`, `visitParens`, and the shared prefix of `visitMulDiv` /
`visitAddSub`: evaluate the left operand, then the right, then apply).  A
`*`/`/` node is a `MulDiv` parse node and an `+`/`-` node an `AddSub` parse
node, hence the dispatch on the operator. -/
def eval1 (env : Env) : Expr → Except Err Value
  | .intLit n => .ok (.number (n : ℚ))
  | .stringLit s => .ok (.text s)
  | .varRef name =>
      match env name with
      | none => .error (.undefinedVariable name)
      | some v => .ok v
  | .paren e => eval1 env e
  | .binaryOp op l r =>
      match eval1 env l with
      | .error e => .error e
      | .ok left =>
        match eval1 env r with
        | .error e => .error e
        | .ok right =>
          match op with
          | .mul => mulDivApply .mul left right
          | .div => mulDivApply .div left right
          | .add => addSubApply .add left right
          | .sub => addSubApply .sub left right

/-- Expression evaluation of `simple_lang2`: identical literal, variable and
parenthesis cases; every arithmetic node is an `ArithmOp` parse node handled
by the unified `visitArithmOp`. -/
def eval2 (env : Env) : Expr → Except Err Value
  | .intLit n => .ok (.number (n : ℚ))
  | .stringLit s => .ok (.text s)
  | .varRef name =>
      match env name with
      | none => .error (.undefinedVariable name)
      | some v => .ok v
  | .paren e => eval2 env e
  | .binaryOp op l r =>
      match eval2 env l with
      | .error e => .error e
      | .ok left =>
        match eval2 env r with
        | .error e => .error e
        | .ok right => arithmOpApply op left right

/-- The numeric comparison dispatch of `visitCondition` (both variants have
the same six branches). -/
def compApply : CompOp → ℚ → ℚ → Bool
  | .eq, a, b => decide (a = b)
  | .ne, a, b => decide (a ≠ b)
  | .lt, a, b => decide (a < b)
  | .le, a, b => decide (a ≤ b)
  | .gt, a, b => decide (b < a)
  | .ge, a, b => decide (b ≤ a)

/-- `Interpreter.visitCondition` of `simple_lang`: evaluate both operands
(left first), require both to be numbers, then compare numerically.  The
boolean is returned to `visitIfStmt` only; it is never wrapped in a
`Value`. -/
def evalCondition1 (env : Env) (c : Condition) : Except Err Bool :=
  match eval1 env c.left with
  | .error e => .error e
  | .ok left =>
    match eval1 env c.right with
    | .error e => .error e
    | .ok right =>
      match left, right with
      | .number a, .number b => .ok (compApply c.op a b)
      | _, _ => .error (.typeMismatch .condition)

/-- `SimpleLangInterpreter.visitCondition` of `simple_lang2`: textually the
same algorithm as in `simple_lang`, over `eval2`. -/
def evalCondition2 (env : Env) (c : Condition) : Except Err Bool :=
  match eval2 env c.left with
  | .error e => .error e
  | .ok left =>
    match eval2 env c.right with
    | .error e => .error e
    | .ok right =>
      match left, right with
      | .number a, .number b => .ok (compApply c.op a b)
      | _, _ => .error (.typeMismatch .condition)

/-- Interpreter state: the environment dict plus the sequence of payloads
emitted by `print` so far. -/
structure St where
  env : Env
  out : List Value

/-- Result of executing statements: normal completion, or a raised failure.
A failure carries the state at the moment the exception was raised — the
Python exception neither rolls back `self.env` nor un-prints prior output. -/
inductive ExecResult where
  | ok : St → ExecResult
  | fail : Err → St → ExecResult

/-- The state carried by a result, whether it completed or failed. -/
def ExecResult.state : ExecResult → St
  | .ok st => st
  | .fail _ st => st

mutual

/-- Statement execution of `simple_lang` (`visitVarDecl`, `visitPrintStmt`,
`visitIfStmt`): `varDecl` evaluates the expression, checks its kind against
the declared keyword (`NUMBER_KW` present means `number`, otherwise `text`)
and on success writes `self.env[name]`; `printStmt` evaluates and emits the
payload; `ifStmt` evaluates the condition, then runs the then-block when
true, the else-block when false and present, and nothing otherwise. -/
def execStmt1 : Stmt → St → ExecResult
  | .varDecl name k e, st =>
    match eval1 st.env e with
    | .error err => .fail err st
    | .ok v =>
      match k with
      | .number =>
        if v.kind ≠ "number" then
          .fail (.declaredTypeMismatch name "number" v.kind) st
        else .ok ⟨st.env.declare name v, st.out⟩
      | .text =>
        if v.kind ≠ "text" then
          .fail (.declaredTypeMismatch name "text" v.kind) st
        else .ok ⟨st.env.declare name v, st.out⟩
  | .printStmt e, st =>
    match eval1 st.env e with
    | .error err => .fail err st
    | .ok v => .ok ⟨st.env, st.out ++ [v]⟩
  | .ifStmt c thn els, st =>
    match evalCondition1 st.env c with
    | .error err => .fail err st
    | .ok b =>
      if b then execStmts1 thn st
      else
        match els with
        | some es => execStmts1 es st
        | none => .ok st

/-- `visitProgram` / `visitBlock` of `simple_lang`: run each statement in
order; a raised failure aborts the rest of the list. -/
def execStmts1 : List Stmt → St → ExecResult
  | [], st => .ok st
  | s :: rest, st =>
    match execStmt1 s st with
    | .ok st₁ => execStmts1 rest st₁
    | .fail err st₁ => .fail err st₁

end

mutual

/-- Statement execution of `simple_lang2`: textually the same statement
visitors as `simple_lang` (with `KW_NUMBER` / `KW_ELSE` token names), over
`eval2` / `evalCondition2`. -/
def execStmt2 : Stmt → St → ExecResult
  | .varDecl name k e, st =>
    match eval2 st.env e with
    | .error err => .fail err st
    | .ok v =>
      match k with
      | .number =>
        if v.kind ≠ "number" then
          .fail (.declaredTypeMismatch name "number" v.kind) st
        else .ok ⟨st.env.declare name v, st.out⟩
      | .text =>
        if v.kind ≠ "text" then
          .fail (.declaredTypeMismatch name "text" v.kind) st
        else .ok ⟨st.env.declare name v, st.out⟩
  | .printStmt e, st =>
    match eval2 st.env e with
    | .error err => .fail err st
    | .ok v => .ok ⟨st.env, st.out ++ [v]⟩
  | .ifStmt c thn els, st =>
    match evalCondition2 st.env c with
    | .error err => .fail err st
    | .ok b =>
      if b then execStmts2 thn st
      else
        match els with
        | some es => execStmts2 es st
        | none => .ok st

/-- `visitProgram` / `visitBlock` of `simple_lang2`. -/
def execStmts2 : List Stmt → St → ExecResult
  | [], st => .ok st
  | s :: rest, st =>
    match execStmt2 s st with
    | .ok st₁ => execStmts2 rest st₁
    | .fail err st₁ => .fail err st₁

end

/-- The state a fresh run starts from: empty environment, no output. -/
def initSt : St := ⟨emptyEnv, []⟩

/-- A whole-program run of the `simple_lang` interpreter. -/
def run1 (p : List Stmt) : ExecResult := execStmts1 p initSt

/-- A whole-program run of the `simple_lang2` interpreter. -/
def run2 (p : List Stmt) : ExecResult := execStmts2 p initSt

/-- The specification's reading of "apply the operator arithmetically", used
to state what a successful binary operation returns. -/
def arithSpec : ArithOp → ℚ → ℚ → ℚ
  | .add, a, b => a + b
  | .sub, a, b => a - b
  | .mul, a, b => a * b
  | .div, a, b => a / b

/-- Which `TypeError` site of `simple_lang` handles each operator: the grammar
routes `*` and `/` nodes to `visitMulDiv` and `+`/`-` nodes to
`visitAddSub`. -/
def tmSite1 : ArithOp → TMSite
  | .add => .addSub
  | .sub => .addSub
  | .mul => .mulDiv
  | .div => .mulDiv

/-- Observational equivalence of evaluation results: the same value on
success, the same classified error kind on failure (the two interpreter
variants raise their failures from differently worded sites). -/
def exceptEquiv {α : Type} : Except Err α → Except Err α → Prop
  | .ok a, .ok b => a = b
  | .error e₁, .error e₂ => e₁.kind = e₂.kind
  | _, _ => False

/-- Observational equivalence of execution results: the same final state
(bindings and printed output) and, on failure, the same error kind. -/
def resultEquiv : ExecResult → ExecResult → Prop
  | .ok st₁, .ok st₂ => st₁ = st₂
  | .fail e₁ st₁, .fail e₂ st₂ => e₁.kind = e₂.kind ∧ st₁ = st₂
  | _, _ => False

/- ------------------------------------------------------------------ -/
/- Helper lemmas                                                       -/
/- ------------------------------------------------------------------ -/

theorem exceptEquiv_refl {α : Type} : ∀ x : Except Err α, exceptEquiv x x
  | .ok _ => rfl
  | .error _ => rfl

theorem resultEquiv_refl : ∀ r : ExecResult, resultEquiv r r
  | .ok _ => rfl
  | .fail _ _ => ⟨rfl, rfl⟩

theorem Env.declare_same (env : Env) (name : String) (v : Value) :
    Env.declare env name v name = some v := by
  simp [Env.declare]

theorem Env.declare_isSome (env : Env) (name n : String) (v : Value)
    (h : (env n).isSome = true) : (Env.declare env name v n).isSome = true := by
  by_cases hn : n = name <;> simp [Env.declare, hn, h]

theorem eval1_varRef_ok (env : Env) (name : String) (v : Value)
    (h : env name = some v) : eval1 env (.varRef name) = .ok v := by
  simp [eval1, h]

theorem execStmt1_varDecl_evalError (st : St) (name : String) (k : DeclKind)
    (e : Expr) (err : Err) (hev : eval1 st.env e = .error err) :
    execStmt1 (.varDecl name k e) st = .fail err st := by
  simp [execStmt1, hev]

theorem execStmt1_varDecl_mismatch (st : St) (name : String) (k : DeclKind)
    (e : Expr) (v : Value) (hev : eval1 st.env e = .ok v)
    (hk : v.kind ≠ k.str) :
    execStmt1 (.varDecl name k e) st =
      .fail (.declaredTypeMismatch name k.str v.kind) st := by
  cases k <;> simp [DeclKind.str] at hk ⊢ <;> simp [execStmt1, hev, hk]

theorem execStmt1_varDecl_ok (st : St) (name : String) (k : DeclKind)
    (e : Expr) (v : Value) (hev : eval1 st.env e = .ok v)
    (hk : v.kind = k.str) :
    execStmt1 (.varDecl name k e) st = .ok ⟨st.env.declare name v, st.out⟩ := by
  cases k <;> simp [DeclKind.str] at hk ⊢ <;> simp [execStmt1, hev, hk]

theorem execStmt2_varDecl_evalError (st : St) (name : String) (k : DeclKind)
    (e : Expr) (err : Err) (hev : eval2 st.env e = .error err) :
    execStmt2 (.varDecl name k e) st = .fail err st := by
  simp [execStmt2, hev]

theorem execStmt2_varDecl_mismatch (st : St) (name : String) (k : DeclKind)
    (e : Expr) (v : Value) (hev : eval2 st.env e = .ok v)
    (hk : v.kind ≠ k.str) :
    execStmt2 (.varDecl name k e) st =
      .fail (.declaredTypeMismatch name k.str v.kind) st := by
  cases k <;> simp [DeclKind.str] at hk ⊢ <;> simp [execStmt2, hev, hk]

theorem execStmt2_varDecl_ok (st : St) (name : String) (k : DeclKind)
    (e : Expr) (v : Value) (hev : eval2 st.env e = .ok v)
    (hk : v.kind = k.str) :
    execStmt2 (.varDecl name k e) st = .ok ⟨st.env.declare name v, st.out⟩ := by
  cases k <;> simp [DeclKind.str] at hk ⊢ <;> simp [execStmt2, hev, hk]

theorem apply_equiv (op : ArithOp) (left right : Value) :
    exceptEquiv
      (match op with
        | .mul => mulDivApply .mul left right
        | .div => mulDivApply .div left right
        | .add => addSubApply .add left right
        | .sub => addSubApply .sub left right)
      (arithmOpApply op left right) := by
  cases op <;> cases left <;> cases right <;>
    simp [mulDivApply, addSubApply, arithmOpApply, Value.kind, exceptEquiv,
      Err.kind] <;>
    first
    | rfl
    | exact exceptEquiv_refl _

theorem eval_equiv (env : Env) (e : Expr) :
    exceptEquiv (eval1 env e) (eval2 env e) := by
  induction e with
  | intLit n => simp [eval1, eval2, exceptEquiv]
  | stringLit s => simp [eval1, eval2, exceptEquiv]
  | varRef name => cases h : env name <;> simp [eval1, eval2, h, exceptEquiv]
  | paren e ih => simpa [eval1, eval2] using ih
  | binaryOp op l r ihl ihr =>
    simp only [eval1, eval2]
    cases h1 : eval1 env l <;> cases h2 : eval2 env l <;> rw [h1, h2] at ihl
    case error.error => simpa [exceptEquiv] using ihl
    case error.ok => exact ihl.elim
    case ok.error => exact ihl.elim
    case ok.ok =>
      simp only [exceptEquiv] at ihl
      subst ihl
      cases h3 : eval1 env r <;> cases h4 : eval2 env r <;> rw [h3, h4] at ihr
      case error.error => simpa [exceptEquiv] using ihr
      case error.ok => exact ihr.elim
      case ok.error => exact ihr.elim
      case ok.ok =>
        simp only [exceptEquiv] at ihr
        subst ihr
        exact apply_equiv op _ _

theorem cond_equiv (env : Env) (c : Condition) :
    exceptEquiv (evalCondition1 env c) (evalCondition2 env c) := by
  have hl := eval_equiv env c.left
  have hr := eval_equiv env c.right
  simp only [evalCondition1, evalCondition2]
  cases h1 : eval1 env c.left <;> cases h2 : eval2 env c.left <;> rw [h1, h2] at hl
  case error.error => simpa [exceptEquiv] using hl
  case error.ok => exact hl.elim
  case ok.error => exact hl.elim
  case ok.ok =>
    simp only [exceptEquiv] at hl
    subst hl
    cases h3 : eval1 env c.right <;> cases h4 : eval2 env c.right <;> rw [h3, h4] at hr
    case error.error => simpa [exceptEquiv] using hr
    case error.ok => exact hr.elim
    case ok.error => exact hr.elim
    case ok.ok =>
      simp only [exceptEquiv] at hr
      subst hr
      rename_i v w
      cases v <;> cases w <;> simp [exceptEquiv, Err.kind]

/- Unfolding lemmas for the statement executors (the mutual definitions
unfold propositionally through their equation lemmas). -/

theorem execStmt1_print_ok (st : St) (e : Expr) (v : Value)
    (h : eval1 st.env e = .ok v) :
    execStmt1 (.printStmt e) st = .ok ⟨st.env, st.out ++ [v]⟩ := by
  simp [execStmt1, h]

theorem execStmt1_print_err (st : St) (e : Expr) (err : Err)
    (h : eval1 st.env e = .error err) :
    execStmt1 (.printStmt e) st = .fail err st := by
  simp [execStmt1, h]

theorem execStmt1_ifStmt_err (st : St) (c : Condition) (thn : List Stmt)
    (els : Option (List Stmt)) (err : Err)
    (h : evalCondition1 st.env c = .error err) :
    execStmt1 (.ifStmt c thn els) st = .fail err st := by
  cases els with
  | some es => rw [execStmt1.eq_3, h]
  | none => rw [execStmt1.eq_4, h]

theorem execStmt1_ifStmt_true (st : St) (c : Condition) (thn : List Stmt)
    (els : Option (List Stmt)) (h : evalCondition1 st.env c = .ok true) :
    execStmt1 (.ifStmt c thn els) st = execStmts1 thn st := by
  cases els with
  | some es => rw [execStmt1.eq_3, h]; simp
  | none => rw [execStmt1.eq_4, h]; simp

theorem execStmt1_ifStmt_false_some (st : St) (c : Condition) (thn es : List Stmt)
    (h : evalCondition1 st.env c = .ok false) :
    execStmt1 (.ifStmt c thn (some es)) st = execStmts1 es st := by
  rw [execStmt1.eq_3, h]; simp

theorem execStmt1_ifStmt_false_none (st : St) (c : Condition) (thn : List Stmt)
    (h : evalCondition1 st.env c = .ok false) :
    execStmt1 (.ifStmt c thn none) st = .ok st := by
  rw [execStmt1.eq_4, h]; simp

theorem execStmts1_nil (st : St) : execStmts1 [] st = .ok st := by
  simp [execStmts1]

theorem execStmts1_cons_ok (s : Stmt) (rest : List Stmt) (st st₁ : St)
    (h : execStmt1 s st = .ok st₁) :
    execStmts1 (s :: rest) st = execStmts1 rest st₁ := by
  simp [execStmts1, h]

theorem execStmts1_cons_fail (s : Stmt) (rest : List Stmt) (st st₁ : St) (err : Err)
    (h : execStmt1 s st = .fail err st₁) :
    execStmts1 (s :: rest) st = .fail err st₁ := by
  simp [execStmts1, h]

theorem execStmt2_print_ok (st : St) (e : Expr) (v : Value)
    (h : eval2 st.env e = .ok v) :
    execStmt2 (.printStmt e) st = .ok ⟨st.env, st.out ++ [v]⟩ := by
  simp [execStmt2, h]

theorem execStmt2_print_err (st : St) (e : Expr) (err : Err)
    (h : eval2 st.env e = .error err) :
    execStmt2 (.printStmt e) st = .fail err st := by
  simp [execStmt2, h]

theorem execStmt2_ifStmt_err (st : St) (c : Condition) (thn : List Stmt)
    (els : Option (List Stmt)) (err : Err)
    (h : evalCondition2 st.env c = .error err) :
    execStmt2 (.ifStmt c thn els) st = .fail err st := by
  cases els with
  | some es => rw [execStmt2.eq_3, h]
  | none => rw [execStmt2.eq_4, h]

theorem execStmt2_ifStmt_true (st : St) (c : Condition) (thn : List Stmt)
    (els : Option (List Stmt)) (h : evalCondition2 st.env c = .ok true) :
    execStmt2 (.ifStmt c thn els) st = execStmts2 thn st := by
  cases els with
  | some es => rw [execStmt2.eq_3, h]; simp
  | none => rw [execStmt2.eq_4, h]; simp

theorem execStmt2_ifStmt_false_some (st : St) (c : Condition) (thn es : List Stmt)
    (h : evalCondition2 st.env c = .ok false) :
    execStmt2 (.ifStmt c thn (some es)) st = execStmts2 es st := by
  rw [execStmt2.eq_3, h]; simp

theorem execStmt2_ifStmt_false_none (st : St) (c : Condition) (thn : List Stmt)
    (h : evalCondition2 st.env c = .ok false) :
    execStmt2 (.ifStmt c thn none) st = .ok st := by
  rw [execStmt2.eq_4, h]; simp

theorem execStmts2_nil (st : St) : execStmts2 [] st = .ok st := by
  simp [execStmts2]

theorem execStmts2_cons_ok (s : Stmt) (rest : List Stmt) (st st₁ : St)
    (h : execStmt2 s st = .ok st₁) :
    execStmts2 (s :: rest) st = execStmts2 rest st₁ := by
  simp [execStmts2, h]

theorem execStmts2_cons_fail (s : Stmt) (rest : List Stmt) (st st₁ : St) (err : Err)
    (h : execStmt2 s st = .fail err st₁) :
    execStmts2 (s :: rest) st = .fail err st₁ := by
  simp [execStmts2, h]

mutual

theorem execStmt_equiv : ∀ (s : Stmt) (st : St),
    resultEquiv (execStmt1 s st) (execStmt2 s st)
  | .varDecl name k e, st => by
    have he := eval_equiv st.env e
    cases h1 : eval1 st.env e <;> cases h2 : eval2 st.env e <;> rw [h1, h2] at he
    case error.error =>
      rw [execStmt1_varDecl_evalError st name k e _ h1,
        execStmt2_varDecl_evalError st name k e _ h2]
      exact ⟨he, rfl⟩
    case error.ok => exact he.elim
    case ok.error => exact he.elim
    case ok.ok =>
      simp only [exceptEquiv] at he
      subst he
      rename_i v
      by_cases hk : v.kind = k.str
      · rw [execStmt1_varDecl_ok st name k e v h1 hk,
          execStmt2_varDecl_ok st name k e v h2 hk]
        exact rfl
      · rw [execStmt1_varDecl_mismatch st name k e v h1 hk,
          execStmt2_varDecl_mismatch st name k e v h2 hk]
        exact ⟨rfl, rfl⟩
  | .printStmt e, st => by
    have he := eval_equiv st.env e
    cases h1 : eval1 st.env e <;> cases h2 : eval2 st.env e <;> rw [h1, h2] at he
    case error.error =>
      rw [execStmt1_print_err st e _ h1, execStmt2_print_err st e _ h2]
      exact ⟨he, rfl⟩
    case error.ok => exact he.elim
    case ok.error => exact he.elim
    case ok.ok =>
      simp only [exceptEquiv] at he
      subst he
      rw [execStmt1_print_ok st e _ h1, execStmt2_print_ok st e _ h2]
      exact rfl
  | .ifStmt c thn els, st => by
    have hc := cond_equiv st.env c
    cases h1 : evalCondition1 st.env c <;> cases h2 : evalCondition2 st.env c <;>
      rw [h1, h2] at hc
    case error.error =>
      rw [execStmt1_ifStmt_err st c thn els _ h1, execStmt2_ifStmt_err st c thn els _ h2]
      exact ⟨hc, rfl⟩
    case error.ok => exact hc.elim
    case ok.error => exact hc.elim
    case ok.ok =>
      simp only [exceptEquiv] at hc
      subst hc
      rename_i b
      cases b with
      | false =>
        cases els with
        | none =>
          rw [execStmt1_ifStmt_false_none st c thn h1,
            execStmt2_ifStmt_false_none st c thn h2]
          exact rfl
        | some es =>
          rw [execStmt1_ifStmt_false_some st c thn es h1,
            execStmt2_ifStmt_false_some st c thn es h2]
          exact execStmts_equiv es st
      | true =>
        rw [execStmt1_ifStmt_true st c thn els h1, execStmt2_ifStmt_true st c thn els h2]
        exact execStmts_equiv thn st
termination_by s _ => sizeOf s

theorem execStmts_equiv : ∀ (ss : List Stmt) (st : St),
    resultEquiv (execStmts1 ss st) (execStmts2 ss st)
  | [], st => by
    rw [execStmts1_nil, execStmts2_nil]
    exact rfl
  | s :: rest, st => by
    have hs := execStmt_equiv s st
    cases h1 : execStmt1 s st <;> cases h2 : execStmt2 s st <;> rw [h1, h2] at hs
    case ok.ok =>
      simp only [resultEquiv] at hs
      subst hs
      rw [execStmts1_cons_ok s rest st _ h1, execStmts2_cons_ok s rest st _ h2]
      exact execStmts_equiv rest _
    case ok.fail => exact hs.elim
    case fail.ok => exact hs.elim
    case fail.fail =>
      rw [execStmts1_cons_fail s rest st _ _ h1, execStmts2_cons_fail s rest st _ _ h2]
      exact hs
termination_by ss _ => sizeOf ss

end

mutual

theorem envMono_stmt1 : ∀ (s : Stmt) (st : St) (n : String),
    (st.env n).isSome = true → (((execStmt1 s st).state).env n).isSome = true
  | .varDecl name k e, st, n, h => by
    cases hev : eval1 st.env e with
    | error err =>
      rw [execStmt1_varDecl_evalError st name k e err hev]
      exact h
    | ok v =>
      by_cases hk : v.kind = k.str
      · rw [execStmt1_varDecl_ok st name k e v hev hk]
        exact Env.declare_isSome st.env name n v h
      · rw [execStmt1_varDecl_mismatch st name k e v hev hk]
        exact h
  | .printStmt e, st, n, h => by
    cases hev : eval1 st.env e with
    | error err =>
      rw [execStmt1_print_err st e err hev]
      exact h
    | ok v =>
      rw [execStmt1_print_ok st e v hev]
      exact h
  | .ifStmt c thn els, st, n, h => by
    cases hc : evalCondition1 st.env c with
    | error err =>
      rw [execStmt1_ifStmt_err st c thn els err hc]
      exact h
    | ok b =>
      cases b with
      | true =>
        rw [execStmt1_ifStmt_true st c thn els hc]
        exact envMono_stmts1 thn st n h
      | false =>
        cases els with
        | some es =>
          rw [execStmt1_ifStmt_false_some st c thn es hc]
          exact envMono_stmts1 es st n h
        | none =>
          rw [execStmt1_ifStmt_false_none st c thn hc]
          exact h
termination_by s _ _ => sizeOf s

theorem envMono_stmts1 : ∀ (ss : List Stmt) (st : St) (n : String),
    (st.env n).isSome = true → (((execStmts1 ss st).state).env n).isSome = true
  | [], st, n, h => by
    rw [execStmts1_nil]
    exact h
  | s :: rest, st, n, h => by
    cases hs : execStmt1 s st with
    | ok st₁ =>
      rw [execStmts1_cons_ok s rest st st₁ hs]
      have h₁ := envMono_stmt1 s st n h
      rw [hs] at h₁
      exact envMono_stmts1 rest st₁ n h₁
    | fail err st₁ =>
      rw [execStmts1_cons_fail s rest st st₁ err hs]
      have h₁ := envMono_stmt1 s st n h
      rw [hs] at h₁
      exact h₁
termination_by ss _ _ => sizeOf ss

end

mutual

theorem outMono_stmt1 : ∀ (s : Stmt) (st : St),
    ∃ tail, ((execStmt1 s st).state).out = st.out ++ tail
  | .varDecl name k e, st => by
    cases hev : eval1 st.env e with
    | error err =>
      rw [execStmt1_varDecl_evalError st name k e err hev]
      exact ⟨[], by simp [ExecResult.state]⟩
    | ok v =>
      by_cases hk : v.kind = k.str
      · rw [execStmt1_varDecl_ok st name k e v hev hk]
        exact ⟨[], by simp [ExecResult.state]⟩
      · rw [execStmt1_varDecl_mismatch st name k e v hev hk]
        exact ⟨[], by simp [ExecResult.state]⟩
  | .printStmt e, st => by
    cases hev : eval1 st.env e with
    | error err =>
      rw [execStmt1_print_err st e err hev]
      exact ⟨[], by simp [ExecResult.state]⟩
    | ok v =>
      rw [execStmt1_print_ok st e v hev]
      exact ⟨[v], rfl⟩
  | .ifStmt c thn els, st => by
    cases hc : evalCondition1 st.env c with
    | error err =>
      rw [execStmt1_ifStmt_err st c thn els err hc]
      exact ⟨[], by simp [ExecResult.state]⟩
    | ok b =>
      cases b with
      | true =>
        rw [execStmt1_ifStmt_true st c thn els hc]
        exact outMono_stmts1 thn st
      | false =>
        cases els with
        | some es =>
          rw [execStmt1_ifStmt_false_some st c thn es hc]
          exact outMono_stmts1 es st
        | none =>
          rw [execStmt1_ifStmt_false_none st c thn hc]
          exact ⟨[], by simp [ExecResult.state]⟩
termination_by s _ => sizeOf s

theorem outMono_stmts1 : ∀ (ss : List Stmt) (st : St),
    ∃ tail, ((execStmts1 ss st).state).out = st.out ++ tail
  | [], st => by
    rw [execStmts1_nil]
    exact ⟨[], by simp [ExecResult.state]⟩
  | s :: rest, st => by
    cases hs : execStmt1 s st with
    | ok st₁ =>
      rw [execStmts1_cons_ok s rest st st₁ hs]
      obtain ⟨t₁, ht₁⟩ := outMono_stmt1 s st
      rw [hs] at ht₁
      obtain ⟨t₂, ht₂⟩ := outMono_stmts1 rest st₁
      refine ⟨t₁ ++ t₂, ?_⟩
      simp only [ExecResult.state] at ht₁
      rw [ht₂, ht₁, List.append_assoc]
    | fail err st₁ =>
      rw [execStmts1_cons_fail s rest st st₁ err hs]
      obtain ⟨t₁, ht₁⟩ := outMono_stmt1 s st
      rw [hs] at ht₁
      exact ⟨t₁, ht₁⟩
termination_by ss _ => sizeOf ss

end

/- ------------------------------------------------------------------ -/
/- Claims                                                              -/
/- ------------------------------------------------------------------ -/

/-- C2: for every VarDecl statement, if the kind of the evaluated
expression value does not match the declared kind keyword, execution fails
with DeclaredTypeMismatch and never coerces (the failure state is the
unchanged input state); if the kinds match, the name is bound to that value
in the environment (insert or overwrite) and the declaration succeeds.
Stated for both interpreter variants. -/
theorem claim_C2 (st : St) (name : String) (k : DeclKind) (e : Expr) (v : Value) :
    (eval1 st.env e = .ok v →
      (v.kind ≠ k.str →
        execStmt1 (.varDecl name k e) st =
          .fail (.declaredTypeMismatch name k.str v.kind) st) ∧
      (v.kind = k.str →
        execStmt1 (.varDecl name k e) st = .ok ⟨st.env.declare name v, st.out⟩ ∧
        Env.declare st.env name v name = some v)) ∧
    (eval2 st.env e = .ok v →
      (v.kind ≠ k.str →
        execStmt2 (.varDecl name k e) st =
          .fail (.declaredTypeMismatch name k.str v.kind) st) ∧
      (v.kind = k.str →
        execStmt2 (.varDecl name k e) st = .ok ⟨st.env.declare name v, st.out⟩ ∧
        Env.declare st.env name v name = some v)) := by
  constructor
  · intro hev
    exact ⟨fun hk => execStmt1_varDecl_mismatch st name k e v hev hk,
      fun hk => ⟨execStmt1_varDecl_ok st name k e v hev hk,
        Env.declare_same st.env name v⟩⟩
  · intro hev
    exact ⟨fun hk => execStmt2_varDecl_mismatch st name k e v hev hk,
      fun hk => ⟨execStmt2_varDecl_ok st name k e v hev hk,
        Env.declare_same st.env name v⟩⟩

/-- C2 witness: declaring number x = "a" fails with DeclaredTypeMismatch and
leaves the state unchanged; declaring number y = 1 succeeds and binds y. -/
theorem claim_C2_witness :
    execStmt1 (.varDecl "x" .number (.stringLit "a")) initSt =
      .fail (.declaredTypeMismatch "x" "number" "text") initSt ∧
    execStmt1 (.varDecl "y" .number (.intLit 1)) initSt =
      .ok ⟨Env.declare initSt.env "y" (.number 1), initSt.out⟩ ∧
    Env.declare initSt.env "y" (.number 1) "y" = some (.number 1) ∧
    execStmt2 (.varDecl "x" .number (.stringLit "a")) initSt =
      .fail (.declaredTypeMismatch "x" "number" "text") initSt := by
  refine ⟨((claim_C2 initSt "x" .number (.stringLit "a") (.text "a")).1 rfl).1 (by decide),
    ?_, ?_, ((claim_C2 initSt "x" .number (.stringLit "a") (.text "a")).2 rfl).1 (by decide)⟩
  · have h := (((claim_C2 initSt "y" .number (.intLit 1) (.number 1)).1 (by norm_num [eval1])).2 rfl).1
    exact h
  · exact (((claim_C2 initSt "y" .number (.intLit 1) (.number 1)).1 (by norm_num [eval1])).2 rfl).2

/-- C3: re-declaring an already-declared variable succeeds whatever the
previously stored value (in particular under a different kind keyword, since
only the current declaration keyword is checked against the new value), and
a subsequent VarRef of that name returns the most recently declared value. -/
theorem claim_C3 (st : St) (name : String) (k : DeclKind) (e : Expr) (v w : Value)
    (_hprev : st.env name = some w)
    (hev : eval1 st.env e = .ok v)
    (hk : v.kind = k.str) :
    execStmt1 (.varDecl name k e) st = .ok ⟨st.env.declare name v, st.out⟩ ∧
    Env.declare st.env name v name = some v ∧
    eval1 (Env.declare st.env name v) (.varRef name) = .ok v :=
  ⟨execStmt1_varDecl_ok st name k e v hev hk,
    Env.declare_same st.env name v,
    eval1_varRef_ok _ name v (Env.declare_same st.env name v)⟩

/-- C3 witness: with x previously declared as number 1, the re-declaration
text x = "hi" succeeds and a read of x yields text "hi". -/
theorem claim_C3_witness :
    (fun n => if n = "x" then some (Value.number 1) else none : Env) "x" =
      some (.number 1) ∧
    execStmt1 (.varDecl "x" .text (.stringLit "hi"))
        ⟨fun n => if n = "x" then some (.number 1) else none, []⟩ =
      .ok ⟨Env.declare (fun n => if n = "x" then some (.number 1) else none)
        "x" (.text "hi"), []⟩ ∧
    eval1 (Env.declare (fun n => if n = "x" then some (.number 1) else none)
        "x" (.text "hi")) (.varRef "x") = .ok (.text "hi") := by
  refine ⟨rfl, ?_, ?_⟩
  · exact (claim_C3 ⟨fun n => if n = "x" then some (.number 1) else none, []⟩
      "x" .text (.stringLit "hi") (.text "hi") (.number 1) rfl rfl rfl).1
  · exact (claim_C3 ⟨fun n => if n = "x" then some (.number 1) else none, []⟩
      "x" .text (.stringLit "hi") (.text "hi") (.number 1) rfl rfl rfl).2.2

/-- C10: a failing VarDecl leaves environment and output unchanged: whether
the expression evaluation fails or the declared-kind check fails, the failure
state is exactly the input state, so no binding is added, removed or
overwritten. Stated for both interpreter variants. -/
theorem claim_C10 (st st₁ : St) (name : String) (k : DeclKind) (e : Expr) (err : Err) :
    (execStmt1 (.varDecl name k e) st = .fail err st₁ → st₁ = st) ∧
    (execStmt2 (.varDecl name k e) st = .fail err st₁ → st₁ = st) := by
  constructor
  · intro h
    cases hev : eval1 st.env e with
    | error e₁ =>
      rw [execStmt1_varDecl_evalError st name k e e₁ hev] at h
      injection h with h1 h2
      exact h2.symm
    | ok v =>
      by_cases hk : v.kind = k.str
      · rw [execStmt1_varDecl_ok st name k e v hev hk] at h
        exact absurd h (by simp)
      · rw [execStmt1_varDecl_mismatch st name k e v hev hk] at h
        injection h with h1 h2
        exact h2.symm
  · intro h
    cases hev : eval2 st.env e with
    | error e₁ =>
      rw [execStmt2_varDecl_evalError st name k e e₁ hev] at h
      injection h with h1 h2
      exact h2.symm
    | ok v =>
      by_cases hk : v.kind = k.str
      · rw [execStmt2_varDecl_ok st name k e v hev hk] at h
        exact absurd h (by simp)
      · rw [execStmt2_varDecl_mismatch st name k e v hev hk] at h
        injection h with h1 h2
        exact h2.symm

/-- C10 witness: the failing declaration number x = "a", executed in a state
where x is bound to number 7, leaves that state unchanged. -/
theorem claim_C10_witness :
    execStmt1 (.varDecl "x" .number (.stringLit "a"))
        ⟨fun n => if n = "x" then some (.number 7) else none, []⟩ =
      .fail (.declaredTypeMismatch "x" "number" "text")
        ⟨fun n => if n = "x" then some (.number 7) else none, []⟩ ∧
    (⟨fun n => if n = "x" then some (.number 7) else none, []⟩ : St) =
      ⟨fun n => if n = "x" then some (.number 7) else none, []⟩ := by
  refine ⟨rfl, ?_⟩
  exact (claim_C10 ⟨fun n => if n = "x" then some (.number 7) else none, []⟩
    ⟨fun n => if n = "x" then some (.number 7) else none, []⟩
    "x" .number (.stringLit "a") (.declaredTypeMismatch "x" "number" "text")).1 rfl

/-- C8: operand evaluation of a BinaryOp is left-then-right: when the left
operand evaluation fails, that failure is the whole evaluation result,
whatever the right operand is (in particular the right operand error, if
any, is never the one reported). Stated for both interpreter variants. -/
theorem claim_C8 (env : Env) (op : ArithOp) (l r : Expr) (err : Err) :
    (eval1 env l = .error err → eval1 env (.binaryOp op l r) = .error err) ∧
    (eval2 env l = .error err → eval2 env (.binaryOp op l r) = .error err) := by
  constructor
  · intro h
    simp [eval1, h]
  · intro h
    simp [eval2, h]

/-- C8 witness: in 'x + y' with both x and y undefined, the reported failure
is the left operand error UndefinedVariable x, for both variants. -/
theorem claim_C8_witness :
    eval1 emptyEnv (.binaryOp .add (.varRef "x") (.varRef "y")) =
      .error (.undefinedVariable "x") ∧
    eval2 emptyEnv (.binaryOp .add (.varRef "x") (.varRef "y")) =
      .error (.undefinedVariable "x") :=
  ⟨(claim_C8 emptyEnv .add (.varRef "x") (.varRef "y") (.undefinedVariable "x")).1 rfl,
    (claim_C8 emptyEnv .add (.varRef "x") (.varRef "y") (.undefinedVariable "x")).2 rfl⟩

/-- C1 counterexample: in BinaryOp(/, 1, 0) both operands evaluate to
Numbers, yet evaluation does not succeed with a Number: the host raises
ZeroDivisionError (which is also not a TypeMismatch), in both variants. -/
theorem claim_C1_counterexample :
    eval1 emptyEnv (.intLit 1) = .ok (.number 1) ∧
    eval1 emptyEnv (.intLit 0) = .ok (.number 0) ∧
    eval1 emptyEnv (.binaryOp .div (.intLit 1) (.intLit 0)) =
      .error .hostZeroDivision ∧
    eval2 emptyEnv (.binaryOp .div (.intLit 1) (.intLit 0)) =
      .error .hostZeroDivision ∧
    Err.hostZeroDivision.kind ≠ "TypeMismatch" := by
  refine ⟨?_, ?_, rfl, rfl, by decide⟩ <;> norm_num [eval1]

/-- C1 (amended): for every BinaryOp with op in plus, minus, times, divide:
if either evaluated operand is not a Number, evaluation fails with
TypeMismatch (in particular Text + Text fails, there is no string
concatenation); if both operands are Numbers then — except for a division
with zero divisor, whose outcome is the host runtime behaviour (see C7) —
evaluation succeeds and returns the Number obtained by applying the operator
arithmetically. Stated for both interpreter variants. -/
theorem claim_C1 (env : Env) (op : ArithOp) (l r : Expr) (lv rv : Value) :
    (eval1 env l = .ok lv → eval1 env r = .ok rv →
      ((lv.kind ≠ "number" ∨ rv.kind ≠ "number") →
        eval1 env (.binaryOp op l r) = .error (.typeMismatch (tmSite1 op))) ∧
      (∀ a b : ℚ, lv = .number a → rv = .number b → (op = .div → b ≠ 0) →
        eval1 env (.binaryOp op l r) = .ok (.number (arithSpec op a b)))) ∧
    (eval2 env l = .ok lv → eval2 env r = .ok rv →
      ((lv.kind ≠ "number" ∨ rv.kind ≠ "number") →
        eval2 env (.binaryOp op l r) = .error (.typeMismatch .arithmOp)) ∧
      (∀ a b : ℚ, lv = .number a → rv = .number b → (op = .div → b ≠ 0) →
        eval2 env (.binaryOp op l r) = .ok (.number (arithSpec op a b)))) := by
  constructor
  · intro h1 h2
    constructor
    · intro hkind
      cases op with
      | add =>
        simp only [eval1, h1, h2, addSubApply, tmSite1]
        rw [if_pos hkind]
      | sub =>
        simp only [eval1, h1, h2, addSubApply, tmSite1]
        rw [if_pos hkind]
      | mul =>
        simp only [eval1, h1, h2, mulDivApply, tmSite1]
        rw [if_pos hkind]
      | div =>
        simp only [eval1, h1, h2, mulDivApply, tmSite1]
        rw [if_pos hkind]
    · intro a b ha hb hdiv
      subst ha hb
      cases op with
      | add => simp [eval1, h1, h2, addSubApply, Value.kind, arithSpec]
      | sub => simp [eval1, h1, h2, addSubApply, Value.kind, arithSpec]
      | mul => simp [eval1, h1, h2, mulDivApply, Value.kind, arithSpec]
      | div =>
        have hb0 : b ≠ 0 := hdiv rfl
        simp [eval1, h1, h2, mulDivApply, Value.kind, arithSpec, hostDiv, hb0]
  · intro h1 h2
    constructor
    · intro hkind
      simp only [eval2, h1, h2, arithmOpApply]
      rw [if_pos hkind]
    · intro a b ha hb hdiv
      subst ha hb
      cases op with
      | add => simp [eval2, h1, h2, arithmOpApply, Value.kind, arithSpec]
      | sub => simp [eval2, h1, h2, arithmOpApply, Value.kind, arithSpec]
      | mul => simp [eval2, h1, h2, arithmOpApply, Value.kind, arithSpec]
      | div =>
        have hb0 : b ≠ 0 := hdiv rfl
        simp [eval2, h1, h2, arithmOpApply, Value.kind, arithSpec, hostDiv, hb0]

/-- C1 witness: 1 + "a" and "a" + "b" fail with TypeMismatch; 1 + 2 succeeds
with the Number 3, in both variants. -/
theorem claim_C1_witness :
    eval1 emptyEnv (.binaryOp .add (.intLit 1) (.stringLit "a")) =
      .error (.typeMismatch (tmSite1 .add)) ∧
    eval1 emptyEnv (.binaryOp .add (.stringLit "a") (.stringLit "b")) =
      .error (.typeMismatch (tmSite1 .add)) ∧
    eval1 emptyEnv (.binaryOp .add (.intLit 1) (.intLit 2)) =
      .ok (.number (arithSpec .add 1 2)) ∧
    eval2 emptyEnv (.binaryOp .add (.intLit 1) (.stringLit "a")) =
      .error (.typeMismatch .arithmOp) ∧
    eval2 emptyEnv (.binaryOp .add (.intLit 1) (.intLit 2)) =
      .ok (.number (arithSpec .add 1 2)) := by
  refine ⟨?_, ?_, ?_, ?_, ?_⟩
  · exact ((claim_C1 emptyEnv .add (.intLit 1) (.stringLit "a") (.number 1)
      (.text "a")).1 (by norm_num [eval1]) rfl).1 (by decide)
  · exact ((claim_C1 emptyEnv .add (.stringLit "a") (.stringLit "b") (.text "a")
      (.text "b")).1 rfl rfl).1 (by decide)
  · exact ((claim_C1 emptyEnv .add (.intLit 1) (.intLit 2) (.number 1)
      (.number 2)).1 (by norm_num [eval1]) (by norm_num [eval1])).2 1 2 rfl rfl
      (by simp)
  · exact ((claim_C1 emptyEnv .add (.intLit 1) (.stringLit "a") (.number 1)
      (.text "a")).2 (by norm_num [eval2]) rfl).1 (by decide)
  · exact ((claim_C1 emptyEnv .add (.intLit 1) (.intLit 2) (.number 1)
      (.number 2)).2 (by norm_num [eval2]) (by norm_num [eval2])).2 1 2 rfl rfl
      (by simp)

/-- C7: for a division of two Numbers, a non-zero divisor yields the true
(non-truncating) quotient as a Number; the interpreter has no
division-by-zero guard, so a zero divisor produces the host runtime failure
ZeroDivisionError, which is not one of the interpreter error kinds. Stated
for both variants. -/
theorem claim_C7 (env : Env) (l r : Expr) (a b : ℚ) :
    (eval1 env l = .ok (.number a) → eval1 env r = .ok (.number b) →
      (b ≠ 0 → eval1 env (.binaryOp .div l r) = .ok (.number (a / b))) ∧
      (b = 0 → eval1 env (.binaryOp .div l r) = .error .hostZeroDivision)) ∧
    (eval2 env l = .ok (.number a) → eval2 env r = .ok (.number b) →
      (b ≠ 0 → eval2 env (.binaryOp .div l r) = .ok (.number (a / b))) ∧
      (b = 0 → eval2 env (.binaryOp .div l r) = .error .hostZeroDivision)) ∧
    Err.hostZeroDivision.kind ∉ interpreterErrorKinds := by
  refine ⟨?_, ?_, by decide⟩
  · intro h1 h2
    constructor
    · intro hb0
      simp [eval1, h1, h2, mulDivApply, Value.kind, hostDiv, hb0]
    · intro hb0
      subst hb0
      simp [eval1, h1, h2, mulDivApply, Value.kind, hostDiv]
  · intro h1 h2
    constructor
    · intro hb0
      simp [eval2, h1, h2, arithmOpApply, Value.kind, hostDiv, hb0]
    · intro hb0
      subst hb0
      simp [eval2, h1, h2, arithmOpApply, Value.kind, hostDiv]

/-- C7 witness: 5 / 2 evaluates to the Number 2.5 (not 2) in both variants,
and 10 / 0 produces the host ZeroDivisionError. -/
theorem claim_C7_witness :
    eval1 emptyEnv (.binaryOp .div (.intLit 5) (.intLit 2)) = .ok (.number 2.5) ∧
    (2.5 : ℚ) ≠ 2 ∧
    eval2 emptyEnv (.binaryOp .div (.intLit 5) (.intLit 2)) = .ok (.number 2.5) ∧
    eval1 emptyEnv (.binaryOp .div (.intLit 10) (.intLit 0)) =
      .error .hostZeroDivision := by
  refine ⟨?_, by norm_num, ?_, ?_⟩
  · have h := ((claim_C7 emptyEnv (.intLit 5) (.intLit 2) 5 2).1
      (by norm_num [eval1]) (by norm_num [eval1])).1 (by norm_num)
    rw [h]
    norm_num
  · have h := ((claim_C7 emptyEnv (.intLit 5) (.intLit 2) 5 2).2.1
      (by norm_num [eval2]) (by norm_num [eval2])).1 (by norm_num)
    rw [h]
    norm_num
  · exact ((claim_C7 emptyEnv (.intLit 10) (.intLit 0) 10 0).1
      (by norm_num [eval1]) (by norm_num [eval1])).2 rfl

/-- C5: condition evaluation requires both operands to be Numbers, failing
with TypeMismatch otherwise (in particular for two Texts); for two Numbers
the comparison operator is applied numerically and the boolean is used only
to select the then-branch, the else-branch, or a no-op — it never becomes a
Value (booleans are not in the Value type at all). Stated for both
variants, with branch selection for each. -/
theorem claim_C5 (st : St) (c : Condition) (lv rv : Value) :
    (eval1 st.env c.left = .ok lv → eval1 st.env c.right = .ok rv →
      ((lv.kind ≠ "number" ∨ rv.kind ≠ "number") →
        evalCondition1 st.env c = .error (.typeMismatch .condition)) ∧
      (∀ a b : ℚ, lv = .number a → rv = .number b →
        evalCondition1 st.env c = .ok (compApply c.op a b))) ∧
    (eval2 st.env c.left = .ok lv → eval2 st.env c.right = .ok rv →
      ((lv.kind ≠ "number" ∨ rv.kind ≠ "number") →
        evalCondition2 st.env c = .error (.typeMismatch .condition)) ∧
      (∀ a b : ℚ, lv = .number a → rv = .number b →
        evalCondition2 st.env c = .ok (compApply c.op a b))) ∧
    (∀ (thn : List Stmt) (els : Option (List Stmt)),
      (evalCondition1 st.env c = .ok true →
        execStmt1 (.ifStmt c thn els) st = execStmts1 thn st) ∧
      (∀ es, evalCondition1 st.env c = .ok false → els = some es →
        execStmt1 (.ifStmt c thn els) st = execStmts1 es st) ∧
      (evalCondition1 st.env c = .ok false → els = none →
        execStmt1 (.ifStmt c thn els) st = .ok st)) ∧
    (∀ (thn : List Stmt) (els : Option (List Stmt)),
      (evalCondition2 st.env c = .ok true →
        execStmt2 (.ifStmt c thn els) st = execStmts2 thn st) ∧
      (∀ es, evalCondition2 st.env c = .ok false → els = some es →
        execStmt2 (.ifStmt c thn els) st = execStmts2 es st) ∧
      (evalCondition2 st.env c = .ok false → els = none →
        execStmt2 (.ifStmt c thn els) st = .ok st)) := by
  refine ⟨?_, ?_, ?_, ?_⟩
  · intro h1 h2
    constructor
    · intro hkind
      cases lv <;> cases rv <;>
        simp [Value.kind] at hkind <;>
        simp [evalCondition1, h1, h2]
    · intro a b ha hb
      subst ha hb
      simp [evalCondition1, h1, h2]
  · intro h1 h2
    constructor
    · intro hkind
      cases lv <;> cases rv <;>
        simp [Value.kind] at hkind <;>
        simp [evalCondition2, h1, h2]
    · intro a b ha hb
      subst ha hb
      simp [evalCondition2, h1, h2]
  · intro thn els
    refine ⟨fun h => execStmt1_ifStmt_true st c thn els h, fun es h hels => ?_,
      fun h hels => ?_⟩
    · subst hels
      exact execStmt1_ifStmt_false_some st c thn es h
    · subst hels
      exact execStmt1_ifStmt_false_none st c thn h
  · intro thn els
    refine ⟨fun h => execStmt2_ifStmt_true st c thn els h, fun es h hels => ?_,
      fun h hels => ?_⟩
    · subst hels
      exact execStmt2_ifStmt_false_some st c thn es h
    · subst hels
      exact execStmt2_ifStmt_false_none st c thn h

/-- C5 witness: comparing "a" == "b" fails with TypeMismatch; 1 < 2 evaluates
to true and the if statement runs exactly its then-block. -/
theorem claim_C5_witness :
    evalCondition1 initSt.env ⟨.stringLit "a", .eq, .stringLit "b"⟩ =
      .error (.typeMismatch .condition) ∧
    evalCondition1 initSt.env ⟨.intLit 1, .lt, .intLit 2⟩ =
      .ok (compApply .lt 1 2) ∧
    compApply .lt 1 2 = true ∧
    execStmt1 (.ifStmt ⟨.intLit 1, .lt, .intLit 2⟩
        [.printStmt (.stringLit "less")] none) initSt =
      execStmts1 [.printStmt (.stringLit "less")] initSt ∧
    evalCondition2 initSt.env ⟨.stringLit "a", .eq, .stringLit "b"⟩ =
      .error (.typeMismatch .condition) := by
  refine ⟨?_, ?_, by norm_num [compApply], ?_, ?_⟩
  · exact ((claim_C5 initSt ⟨.stringLit "a", .eq, .stringLit "b"⟩ (.text "a")
      (.text "b")).1 rfl rfl).1 (by decide)
  · exact ((claim_C5 initSt ⟨.intLit 1, .lt, .intLit 2⟩ (.number 1)
      (.number 2)).1 (by norm_num [eval1]) (by norm_num [eval1])).2 1 2 rfl rfl
  · refine ((claim_C5 initSt ⟨.intLit 1, .lt, .intLit 2⟩ (.number 1)
      (.number 2)).2.2.1 [.printStmt (.stringLit "less")] none).1 ?_
    have h := ((claim_C5 initSt ⟨.intLit 1, .lt, .intLit 2⟩ (.number 1)
      (.number 2)).1 (by norm_num [eval1]) (by norm_num [eval1])).2 1 2 rfl rfl
    rw [h]
    norm_num [compApply]
  · exact ((claim_C5 initSt ⟨.stringLit "a", .eq, .stringLit "b"⟩ (.text "a")
      (.text "b")).2.1 rfl rfl).1 (by decide)

/-- C6: top-level statements run in order and execution halts at the first
failing statement: when a statement fails, the whole sequence fails with that
same failure whatever statements follow, and the output accumulated in the
failure state extends what was already emitted before the statement (nothing
printed earlier is suppressed). -/
theorem claim_C6 (s : Stmt) (rest : List Stmt) (st st₁ : St) (err : Err) :
    (execStmt1 s st = .ok st₁ → execStmts1 (s :: rest) st = execStmts1 rest st₁) ∧
    (execStmt1 s st = .fail err st₁ →
      execStmts1 (s :: rest) st = .fail err st₁ ∧
      ∃ tail, st₁.out = st.out ++ tail) := by
  constructor
  · exact execStmts1_cons_ok s rest st st₁
  · intro h
    refine ⟨execStmts1_cons_fail s rest st st₁ err h, ?_⟩
    obtain ⟨t, ht⟩ := outMono_stmt1 s st
    rw [h] at ht
    exact ⟨t, ht⟩

/-- C6 witness: after print 1 has already emitted number 1, the failing
statement print nope aborts the rest of the program (print 2 never runs) and
the failure state still carries the previously emitted output. -/
theorem claim_C6_witness :
    execStmt1 (.printStmt (.varRef "nope")) ⟨emptyEnv, [.number 1]⟩ =
      .fail (.undefinedVariable "nope") ⟨emptyEnv, [.number 1]⟩ ∧
    execStmts1 [.printStmt (.varRef "nope"), .printStmt (.intLit 2)]
        ⟨emptyEnv, [.number 1]⟩ =
      .fail (.undefinedVariable "nope") ⟨emptyEnv, [.number 1]⟩ := by
  refine ⟨rfl, ?_⟩
  exact ((claim_C6 (.printStmt (.varRef "nope")) [.printStmt (.intLit 2)]
    ⟨emptyEnv, [.number 1]⟩ ⟨emptyEnv, [.number 1]⟩
    (.undefinedVariable "nope")).2 rfl).1

/-- C4: the environment domain never shrinks: a name bound in the current
state stays bound (hence readable by VarRef) after executing any statement
and any statement list — blocks and if-branches share the flat environment
and nothing ever deletes a binding. -/
theorem claim_C4 (st : St) (n : String) (h : (st.env n).isSome = true) :
    (∀ s : Stmt, (((execStmt1 s st).state).env n).isSome = true) ∧
    (∀ ss : List Stmt, (((execStmts1 ss st).state).env n).isSome = true) ∧
    (∀ ss : List Stmt, ∃ v, eval1 ((execStmts1 ss st).state).env (.varRef n) = .ok v) := by
  refine ⟨fun s => envMono_stmt1 s st n h, fun ss => envMono_stmts1 ss st n h,
    fun ss => ?_⟩
  have h2 := envMono_stmts1 ss st n h
  cases hv : ((execStmts1 ss st).state).env n with
  | none =>
    rw [hv] at h2
    simp at h2
  | some v => exact ⟨v, eval1_varRef_ok _ n v hv⟩

/-- C4 witness: a variable declared inside the then-block of an if is still
bound after the if completes, and stays bound through a further statement. -/
theorem claim_C4_witness :
    (((execStmts1 [.ifStmt ⟨.intLit 1, .lt, .intLit 2⟩
        [.varDecl "x" .number (.intLit 1)] none] initSt).state).env "x").isSome
      = true ∧
    (((execStmts1 [.printStmt (.varRef "x")]
        ((execStmts1 [.ifStmt ⟨.intLit 1, .lt, .intLit 2⟩
          [.varDecl "x" .number (.intLit 1)] none] initSt).state)).state).env
        "x").isSome = true := by
  refine ⟨rfl, ?_⟩
  exact (claim_C4 ((execStmts1 [.ifStmt ⟨.intLit 1, .lt, .intLit 2⟩
    [.varDecl "x" .number (.intLit 1)] none] initSt).state) "x" rfl).2.1
    [.printStmt (.varRef "x")]

/-- C9: the two interpreter variants are observationally equivalent: for
every program AST, either both runs complete in the same final state (in
particular with the same sequence of printed values), or both fail in the
same intermediate state with the same error kind. -/
theorem claim_C9 (p : List Stmt) :
    resultEquiv (run1 p) (run2 p) ∧
    ((run1 p).state).out = ((run2 p).state).out := by
  have h : resultEquiv (run1 p) (run2 p) := execStmts_equiv p initSt
  refine ⟨h, ?_⟩
  cases h1 : run1 p <;> cases h2 : run2 p <;> rw [h1, h2] at h
  case ok.ok =>
    simp only [resultEquiv] at h
    rw [h]
  case ok.fail => exact h.elim
  case fail.ok => exact h.elim
  case fail.fail =>
    simp only [resultEquiv] at h
    rw [h.2]
    rfl

end SimpleLang
